import Mathlib

/-!
Shallow embedding of the W2-to-Form-1040 field-mapping and tax-computation
engine of `src/lib/w2-to-1040-mapping.ts` (class `W2ToForm1040Mapper`),
together with proofs of the specification claims about it.

Modelling conventions:
* JavaScript numbers are modelled as rationals (`ℚ`); every computation the
  code performs on the amounts involved (sums, multiplication by decimal
  bracket rates, rounding to cents) is exact on rationals.
* A `Partial<Form1040Data>` is a structure of `Option` fields, `none`
  modelling an absent (`undefined`) field.
* JavaScript truthiness is modelled explicitly: an absent value, the empty
  string, and the number `0` are falsy.
* A raw extracted-field value (`string | number` per the extraction service's
  `ExtractedFieldData` interface, or absent) is modelled by `RawValue`.
-/

namespace W2Mapping

/-- A raw extracted-field value: a JavaScript number, a string, or absent. -/
inductive RawValue where
  | num (q : ℚ)
  | str (s : String)
  | undef
deriving DecidableEq

/-- JavaScript truthiness of a raw value: `undefined`, `0` and `""` are falsy. -/
def jsTruthy : RawValue → Bool
  | .num q => q != 0
  | .str s => s != ""
  | .undef => false

/-- JavaScript truthiness of an optional string field. -/
def strTruthy : Option String → Bool
  | none => false
  | some s => s != ""

/-- JavaScript `x || 0` on an optional numeric field (absent and `0` both give `0`). -/
def orZero (o : Option ℚ) : ℚ := o.getD 0

/-- JavaScript falsiness of an optional numeric field (`!x`): absent or zero. -/
def numFalsy (o : Option ℚ) : Bool := orZero o == 0

/-- Numeric value of a list of decimal digit characters. -/
def digitsVal (ds : List Char) : ℕ :=
  ds.foldl (fun n c => 10 * n + (c.toNat - '0'.toNat)) 0

/-- Exponent part of a JavaScript float literal (after the `e`/`E`);
an invalid exponent contributes nothing, as `parseFloat` stops before it. -/
def expVal : List Char → ℤ
  | '-' :: ds =>
    let t := ds.takeWhile Char.isDigit
    if t = [] then 0 else -(digitsVal t : ℤ)
  | '+' :: ds =>
    let t := ds.takeWhile Char.isDigit
    if t = [] then 0 else (digitsVal t : ℤ)
  | ds =>
    let t := ds.takeWhile Char.isDigit
    if t = [] then 0 else (digitsVal t : ℤ)

/-- JavaScript `parseFloat` on a string already stripped of `$`, `,` and
whitespace: optional sign, digits with optional fractional part (at least one
digit overall), optional exponent; `none` models `NaN` (no parsable prefix). -/
def jsParseFloat (s : String) : Option ℚ :=
  let cs := s.toList
  let sign : ℚ := if cs.head? = some '-' then -1 else 1
  let cs := if cs.head? = some '-' ∨ cs.head? = some '+' then cs.drop 1 else cs
  let intDigits := cs.takeWhile Char.isDigit
  let rest := cs.drop intDigits.length
  let fracDigits := if rest.head? = some '.' then (rest.drop 1).takeWhile Char.isDigit else []
  let afterFrac := if rest.head? = some '.' then (rest.drop 1).drop fracDigits.length else rest
  if intDigits = [] ∧ fracDigits = [] then none
  else
    let mantissa : ℚ :=
      (digitsVal intDigits : ℚ) + (digitsVal fracDigits : ℚ) / ((10 : ℚ) ^ fracDigits.length)
    let e : ℤ :=
      match afterFrac with
      | 'e' :: ds => expVal ds
      | 'E' :: ds => expVal ds
      | _ => 0
    some (sign * mantissa * (10 : ℚ) ^ e)

/-- The character class removed by `value.replace(/[$,\s]/g, '')`. -/
def isMoneyJunk (c : Char) : Bool := c = '$' || c = ',' || c.isWhitespace

/-- `parseAmount` of the source: numeric passthrough; strings are stripped of
currency symbols, commas and whitespace then float-parsed, `NaN` giving `0`;
any other (absent) input gives `0`. -/
def parseAmount : RawValue → ℚ
  | .num q => q
  | .str s => (jsParseFloat (String.mk (s.toList.filter (fun c => !isMoneyJunk c)))).getD 0
  | .undef => 0

/-- Raw extracted-field record for one document, restricted to the keys the
mapper, summary generator and validator read.  Identity-like fields are
strings (the code calls string methods on them); monetary fields are untyped
`RawValue`s fed to `parseAmount` / truthiness checks. -/
structure W2Data where
  employeeName : Option String := none
  employeeSSN : Option String := none
  employeeAddress : Option String := none
  firstName : Option String := none
  lastName : Option String := none
  ssn : Option String := none
  employerName : Option String := none
  employerEIN : Option String := none
  wages : RawValue := .undef
  federalTaxWithheld : RawValue := .undef
  socialSecurityWages : RawValue := .undef
  medicareWages : RawValue := .undef
  line1 : RawValue := .undef
deriving DecidableEq

/-- The canonical tax-form record `Partial<Form1040Data>`: every field the
mapper reads or writes, each optional (`none` = absent). -/
@[ext]
structure Form1040Data where
  firstName : Option String := none
  lastName : Option String := none
  ssn : Option String := none
  address : Option String := none
  city : Option String := none
  state : Option String := none
  zipCode : Option String := none
  filingStatus : Option String := none
  line1 : Option ℚ := none
  line2b : Option ℚ := none
  line3b : Option ℚ := none
  line4b : Option ℚ := none
  line5b : Option ℚ := none
  line6b : Option ℚ := none
  line7 : Option ℚ := none
  line8 : Option ℚ := none
  line9 : Option ℚ := none
  line11 : Option ℚ := none
  line12 : Option ℚ := none
  line13 : Option ℚ := none
  line15 : Option ℚ := none
  line16 : Option ℚ := none
  line17 : Option ℚ := none
  line23 : Option ℚ := none
  line24 : Option ℚ := none
  line25a : Option ℚ := none
  line25b : Option ℚ := none
  line25c : Option ℚ := none
  line25d : Option ℚ := none
  line32 : Option ℚ := none
  line33 : Option ℚ := none
  line34 : Option ℚ := none
  line37 : Option ℚ := none
deriving DecidableEq

/-- The empty canonical record (the default `{}` for a missing `existingForm1040`). -/
def emptyForm : Form1040Data := {}

/-- JavaScript `String.prototype.trim`: drop leading and trailing whitespace. -/
def jsTrim (s : String) : String :=
  String.mk (((s.toList.dropWhile Char.isWhitespace).reverse.dropWhile
    Char.isWhitespace).reverse)

/-- The maximal non-whitespace runs of a character list (JavaScript
`split(/\s+/)` on a string without leading whitespace), accumulating the
current run in reverse. -/
def wsTokensAux : List Char → List Char → List String
  | [], acc => if acc = [] then [] else [String.mk acc.reverse]
  | c :: cs, acc =>
    if c.isWhitespace then
      if acc = [] then wsTokensAux cs [] else String.mk acc.reverse :: wsTokensAux cs []
    else wsTokensAux cs (c :: acc)

/-- `w2Data.employeeName.trim().split(/\s+/)`: splitting the already-trimmed
string on whitespace runs; the empty string yields `[""]`, as in JavaScript. -/
def jsSplitWS (s : String) : List String :=
  if s = "" then [""] else wsTokensAux s.toList []

/-- `formatSSN` of the source: strip all non-digits; exactly nine digits are
formatted as `DDD-DD-DDDD`, anything else is returned as the bare digit string. -/
def formatSSN (ssn : String) : String :=
  if ssn = "" then ""
  else
    let cleaned := ssn.toList.filter Char.isDigit
    if cleaned.length = 9 then
      String.mk (cleaned.take 3) ++ "-" ++ String.mk ((cleaned.drop 3).take 2) ++ "-" ++
        String.mk (cleaned.drop 5)
    else String.mk cleaned

/-- Result of `parseAddress`. -/
structure AddressParts where
  street : String
  city : String
  state : String
  zipCode : String
deriving DecidableEq

/-- The regex `/^([A-Z]{2})\s*(\d{5}(-\d{4})?)$/` applied to the state-zip
segment: two uppercase letters, optional whitespace, five digits with an
optional `-dddd` suffix; returns the two capture groups on a match. -/
def matchStateZip (s : String) : Option (String × String) :=
  match s.toList with
  | a :: b :: rest =>
    if a.isUpper && b.isUpper then
      let zip := rest.dropWhile Char.isWhitespace
      if zip.length = 5 ∧ zip.all Char.isDigit then
        some (String.mk [a, b], String.mk zip)
      else if zip.length = 10 ∧ (zip.take 5).all Char.isDigit ∧ zip.get? 5 = some '-' ∧
          (zip.drop 6).all Char.isDigit then
        some (String.mk [a, b], String.mk zip)
      else none
    else none
  | _ => none

/-- JavaScript `split(',')` on a character list: comma-separated segments,
empty segments preserved (the empty input gives one empty segment). -/
def splitOnComma : List Char → List (List Char)
  | [] => [[]]
  | c :: cs =>
    if c = ',' then [] :: splitOnComma cs
    else
      match splitOnComma cs with
      | t :: ts => (c :: t) :: ts
      | [] => [[c]]

/-- `parseAddress` of the source: split on commas and trim; with at least
three segments the last is matched as state-zip, the second-to-last is the
city and the rest (rejoined with `, `) is the street; otherwise the whole
input is the street. -/
def parseAddress (address : String) : AddressParts :=
  let parts := (splitOnComma address.toList).map (fun cs => jsTrim (String.mk cs))
  if parts.length ≥ 3 then
    let street := String.intercalate ", " (parts.take (parts.length - 2))
    let city := parts.getD (parts.length - 2) ""
    let stateZip := parts.getD (parts.length - 1) ""
    match matchStateZip stateZip with
    | some (st, zip) => ⟨street, city, st, zip⟩
    | none => ⟨street, city, "", ""⟩
  else ⟨address, "", "", ""⟩

/-- Personal-information mapping, name: fires when the raw employee name is
truthy and the accumulating record's `firstName` is falsy; first whitespace
token becomes `firstName`, the remaining tokens joined by single spaces
become `lastName` (`x || ''` turns a missing token into the empty string). -/
def applyNameMapping (w2Data : W2Data) (f : Form1040Data) : Form1040Data :=
  if strTruthy w2Data.employeeName && !strTruthy f.firstName then
    let nameParts := jsSplitWS (jsTrim (w2Data.employeeName.getD ""))
    { f with firstName := some (nameParts.headD ""),
             lastName := some (String.intercalate " " (nameParts.drop 1)) }
  else f

/-- Personal-information mapping, SSN: first-write-wins keyed on `ssn`. -/
def applySSNMapping (w2Data : W2Data) (f : Form1040Data) : Form1040Data :=
  if strTruthy w2Data.employeeSSN && !strTruthy f.ssn then
    { f with ssn := some (formatSSN (w2Data.employeeSSN.getD "")) }
  else f

/-- Personal-information mapping, address: first-write-wins keyed on `address`. -/
def applyAddressMapping (w2Data : W2Data) (f : Form1040Data) : Form1040Data :=
  if strTruthy w2Data.employeeAddress && !strTruthy f.address then
    let addressParts := parseAddress (w2Data.employeeAddress.getD "")
    { f with address := some addressParts.street,
             city := some addressParts.city,
             state := some addressParts.state,
             zipCode := some addressParts.zipCode }
  else f

/-- Income mapping, line 1: the parsed wage amount is added to the
accumulated value when strictly positive. -/
def applyWagesMapping (w2Data : W2Data) (f : Form1040Data) : Form1040Data :=
  let wages := parseAmount w2Data.wages
  if wages > 0 then { f with line1 := some (orZero f.line1 + wages) } else f

/-- Income mapping, line 25a: the parsed federal-withholding amount is added
to the accumulated value when strictly positive. -/
def applyWithholdingMapping (w2Data : W2Data) (f : Form1040Data) : Form1040Data :=
  let federalTaxWithheld := parseAmount w2Data.federalTaxWithheld
  if federalTaxWithheld > 0 then
    { f with line25a := some (orZero f.line25a + federalTaxWithheld) }
  else f

/-- `calculateTotalIncome` of the source: the fixed sum of the income lines,
absent lines counting as zero. -/
def calculateTotalIncome (f : Form1040Data) : ℚ :=
  orZero f.line1 + orZero f.line2b + orZero f.line3b + orZero f.line4b +
    orZero f.line5b + orZero f.line6b + orZero f.line7 + orZero f.line8

/-- `getStandardDeduction` of the source: the 2023 lookup table with the
single amount as fallback for unknown statuses. -/
def getStandardDeduction (filingStatus : String) : ℚ :=
  if filingStatus = "SINGLE" then 13850
  else if filingStatus = "MARRIED_FILING_JOINTLY" then 27700
  else if filingStatus = "MARRIED_FILING_SEPARATELY" then 13850
  else if filingStatus = "HEAD_OF_HOUSEHOLD" then 20800
  else if filingStatus = "QUALIFYING_SURVIVING_SPOUSE" then 27700
  else 13850

/-- A tax bracket; `max = none` models the terminal bracket's `Infinity`. -/
structure Bracket where
  min : ℚ
  max : Option ℚ
  rate : ℚ

/-- The 2023 brackets for `MARRIED_FILING_JOINTLY`. -/
def bracketsMFJ : List Bracket :=
  [⟨0, some 22000, 0.10⟩, ⟨22000, some 89450, 0.12⟩, ⟨89450, some 190750, 0.22⟩,
   ⟨190750, some 364200, 0.24⟩, ⟨364200, some 462500, 0.32⟩,
   ⟨462500, some 693750, 0.35⟩, ⟨693750, none, 0.37⟩]

/-- The 2023 brackets for every other filing status. -/
def bracketsSingle : List Bracket :=
  [⟨0, some 11000, 0.10⟩, ⟨11000, some 44725, 0.12⟩, ⟨44725, some 95375, 0.22⟩,
   ⟨95375, some 182050, 0.24⟩, ⟨182050, some 231250, 0.32⟩,
   ⟨231250, some 578125, 0.35⟩, ⟨578125, none, 0.37⟩]

/-- The source's bracket loop: walk the brackets in order, taxing
`min(remaining, bracket.max - bracket.min)` at each rate (the terminal
bracket's `Infinity - min` makes the minimum the whole remainder), stopping
once the remaining income is non-positive. -/
def bracketWalk : List Bracket → ℚ → ℚ → ℚ
  | [], _, tax => tax
  | b :: rest, remainingIncome, tax =>
    if remainingIncome ≤ 0 then tax
    else
      let taxableAtThisBracket :=
        match b.max with
        | some m => min remainingIncome (m - b.min)
        | none => remainingIncome
      bracketWalk rest (remainingIncome - taxableAtThisBracket)
        (tax + taxableAtThisBracket * b.rate)

/-- `Math.round(tax * 100) / 100`: round to cents, halves toward positive infinity. -/
def round2 (q : ℚ) : ℚ := (⌊q * 100 + 1 / 2⌋ : ℚ) / 100

/-- `calculateTaxLiability` of the source: pick the bracket table by filing
status, walk it, and round the accumulated tax to two decimal places. -/
def calculateTaxLiability (taxableIncome : ℚ) (filingStatus : Option String) : ℚ :=
  let brackets :=
    if filingStatus = some "MARRIED_FILING_JOINTLY" then bracketsMFJ else bracketsSingle
  round2 (bracketWalk brackets taxableIncome 0)

/-- The derived-line recomputation block of `mapW2ToForm1040` (lines 9, 11,
12, 15, 16, 24, 32 and the refund/amount-owed settlement), in source order. -/
def recomputeDerived (f : Form1040Data) : Form1040Data :=
  let f := { f with line9 := some (calculateTotalIncome f) }
  let f := { f with line11 := f.line9 }
  let f :=
    if numFalsy f.line12 && strTruthy f.filingStatus then
      { f with line12 := some (getStandardDeduction (f.filingStatus.getD "")) }
    else f
  let f := { f with line15 := some (max 0 (orZero f.line11 - orZero f.line12 - orZero f.line13)) }
  let f := { f with line16 := some (calculateTaxLiability (orZero f.line15) f.filingStatus) }
  let f := { f with line24 := some (orZero f.line16 + orZero f.line17 + orZero f.line23) }
  let f := { f with line32 := some (orZero f.line25a + orZero f.line25b + orZero f.line25c + orZero f.line25d) }
  let totalTax := orZero f.line24
  let totalPayments := orZero f.line32
  if totalPayments > totalTax then
    { f with line33 := some (totalPayments - totalTax),
             line34 := some (totalPayments - totalTax),
             line37 := some 0 }
  else
    { f with line33 := some 0, line34 := some 0, line37 := some (totalTax - totalPayments) }

/-- `mapW2ToForm1040` of the source: starting from a copy of the existing
record, apply the personal-information mappings, accumulate the monetary
fields, and recompute every derived line. -/
def mapW2ToForm1040 (w2Data : W2Data) (existingForm1040 : Form1040Data) : Form1040Data :=
  recomputeDerived
    (applyWithholdingMapping w2Data
      (applyWagesMapping w2Data
        (applyAddressMapping w2Data
          (applySSNMapping w2Data
            (applyNameMapping w2Data existingForm1040)))))

/-- One entry of the mapping summary: `{ w2Field, w2Value, form1040Line,
form1040Value, description }`. -/
structure MappingEntry where
  w2Field : String
  w2Value : RawValue
  form1040Line : String
  form1040Value : RawValue
  description : String
deriving DecidableEq

/-- `createMappingSummary` of the source: one `push` per present well-known
W2 field, in source order. -/
def createMappingSummary (w2Data : W2Data) : List MappingEntry :=
  let mappings : List MappingEntry := []
  let mappings :=
    if strTruthy w2Data.employeeName then
      mappings ++ [⟨"Employee Name", .str (w2Data.employeeName.getD ""), "Header",
        .str (w2Data.employeeName.getD ""), "Taxpayer name from W2"⟩]
    else mappings
  let mappings :=
    if strTruthy w2Data.employeeSSN then
      mappings ++ [⟨"Employee SSN", .str (w2Data.employeeSSN.getD ""), "Header",
        .str (formatSSN (w2Data.employeeSSN.getD "")), "Taxpayer SSN from W2"⟩]
    else mappings
  let mappings :=
    if jsTruthy w2Data.wages then
      mappings ++ [⟨"Box 1 - Wages", w2Data.wages, "Line 1",
        .num (parseAmount w2Data.wages), "Wages, tips, other compensation"⟩]
    else mappings
  let mappings :=
    if jsTruthy w2Data.federalTaxWithheld then
      mappings ++ [⟨"Box 2 - Federal Tax Withheld", w2Data.federalTaxWithheld, "Line 25a",
        .num (parseAmount w2Data.federalTaxWithheld), "Federal income tax withheld"⟩]
    else mappings
  let mappings :=
    if jsTruthy w2Data.socialSecurityWages then
      mappings ++ [⟨"Box 3 - Social Security Wages", w2Data.socialSecurityWages, "Informational",
        .num (parseAmount w2Data.socialSecurityWages), "Social security wages (informational)"⟩]
    else mappings
  let mappings :=
    if jsTruthy w2Data.medicareWages then
      mappings ++ [⟨"Box 5 - Medicare Wages", w2Data.medicareWages, "Informational",
        .num (parseAmount w2Data.medicareWages), "Medicare wages and tips (informational)"⟩]
    else mappings
  mappings

/-- The fixed six-field checklist the mapping summary walks, in its order.
This and the two functions below are the specification-side description of
the summary (one entry per present checklist field, in checklist order),
against which `createMappingSummary` is compared. -/
inductive ChecklistField where
  | employeeName
  | employeeSSN
  | wages
  | federalTaxWithheld
  | socialSecurityWages
  | medicareWages
deriving DecidableEq

/-- The checklist in the order the summary examines it. -/
def mappingChecklist : List ChecklistField :=
  [.employeeName, .employeeSSN, .wages, .federalTaxWithheld, .socialSecurityWages,
   .medicareWages]

/-- Whether a checklist field is present (truthy) in the raw record. -/
def checklistPresent (w2Data : W2Data) : ChecklistField → Bool
  | .employeeName => strTruthy w2Data.employeeName
  | .employeeSSN => strTruthy w2Data.employeeSSN
  | .wages => jsTruthy w2Data.wages
  | .federalTaxWithheld => jsTruthy w2Data.federalTaxWithheld
  | .socialSecurityWages => jsTruthy w2Data.socialSecurityWages
  | .medicareWages => jsTruthy w2Data.medicareWages

/-- The summary entry a checklist field maps to. -/
def checklistEntry (w2Data : W2Data) : ChecklistField → MappingEntry
  | .employeeName => ⟨"Employee Name", .str (w2Data.employeeName.getD ""), "Header",
      .str (w2Data.employeeName.getD ""), "Taxpayer name from W2"⟩
  | .employeeSSN => ⟨"Employee SSN", .str (w2Data.employeeSSN.getD ""), "Header",
      .str (formatSSN (w2Data.employeeSSN.getD "")), "Taxpayer SSN from W2"⟩
  | .wages => ⟨"Box 1 - Wages", w2Data.wages, "Line 1",
      .num (parseAmount w2Data.wages), "Wages, tips, other compensation"⟩
  | .federalTaxWithheld => ⟨"Box 2 - Federal Tax Withheld", w2Data.federalTaxWithheld,
      "Line 25a", .num (parseAmount w2Data.federalTaxWithheld), "Federal income tax withheld"⟩
  | .socialSecurityWages => ⟨"Box 3 - Social Security Wages", w2Data.socialSecurityWages,
      "Informational", .num (parseAmount w2Data.socialSecurityWages),
      "Social security wages (informational)"⟩
  | .medicareWages => ⟨"Box 5 - Medicare Wages", w2Data.medicareWages, "Informational",
      .num (parseAmount w2Data.medicareWages), "Medicare wages and tips (informational)"⟩

/-- Result record of `validateW2DataForMapping`. -/
structure ValidationResult where
  isValid : Bool
  errors : List String
  warnings : List String
deriving DecidableEq

/-- `validateW2DataForMapping` of the source: presence-only checks; three
required-field errors (each with alternate accepted key spellings), three
optional-field warnings; `isValid` is `errors.length === 0`. -/
def validateW2DataForMapping (w2Data : W2Data) : ValidationResult :=
  let errors : List String := []
  let errors :=
    if !jsTruthy w2Data.wages && !jsTruthy w2Data.line1 then
      errors ++ ["W2 wages (Box 1) is required but not found"]
    else errors
  let errors :=
    if !strTruthy w2Data.employeeSSN && !strTruthy w2Data.ssn then
      errors ++ ["Employee SSN is required but not found"]
    else errors
  let errors :=
    if !strTruthy w2Data.employeeName && !strTruthy w2Data.firstName &&
        !strTruthy w2Data.lastName then
      errors ++ ["Employee name is required but not found"]
    else errors
  let warnings : List String := []
  let warnings :=
    if !jsTruthy w2Data.federalTaxWithheld then
      warnings ++ ["Federal tax withheld (Box 2) not found - no withholdings will be applied"]
    else warnings
  let warnings :=
    if !strTruthy w2Data.employerName then
      warnings ++ ["Employer name not found - may be needed for verification"]
    else warnings
  let warnings :=
    if !strTruthy w2Data.employerEIN then
      warnings ++ ["Employer EIN not found - may be needed for verification"]
    else warnings
  ⟨errors.length == 0, errors, warnings⟩

/-- An object store for the caller-record frame claim: JavaScript objects
live at references; `mapW2ToForm1040` starts by spreading the caller's
record into a freshly allocated object and mutates only that fresh object. -/
structure Store where
  mem : ℕ → Form1040Data
  next : ℕ

/-- Read the record at a reference. -/
def Store.read (σ : Store) (r : ℕ) : Form1040Data := σ.mem r

/-- `mapW2ToForm1040` at the object level: `{...existingForm1040}` allocates
a fresh object holding a copy of the caller's record, and every subsequent
field write of the source targets that fresh object, so the final store maps
the fresh reference to the merged record and leaves every other reference
untouched. Returns the fresh reference and the final store. -/
def mapW2ToForm1040Ref (w2Data : W2Data) (existingRef : ℕ) (σ : Store) : ℕ × Store :=
  let fresh := σ.next
  let merged := mapW2ToForm1040 w2Data (σ.read existingRef)
  (fresh, ⟨fun r => if r = fresh then merged else σ.mem r, σ.next + 1⟩)

/-- The raw record of the worked example: wages 50000, withholding 5000. -/
def w2Example : W2Data := { wages := .num 50000, federalTaxWithheld := .num 5000 }

/-- The existing record of the worked example: single filer, nothing else. -/
def form1040Single : Form1040Data := { filingStatus := some "SINGLE" }

/-- A raw record carrying only an employee name. -/
def w2DoeRaw : W2Data := { employeeName := some "John Doe" }

/-- An existing record that already has a family name but no given name. -/
def formSmith : Form1040Data := { lastName := some "Smith" }

/-- An existing record with every identity field populated. -/
def formFull : Form1040Data :=
  { firstName := some "Ann", lastName := some "Lee", ssn := some "123-45-6789",
    address := some "1 Elm St", city := some "Springfield", state := some "IL",
    zipCode := some "62704" }

/-- A raw record with all three identity fields populated. -/
def w2FullRaw : W2Data :=
  { employeeName := some "John Doe", employeeSSN := some "987654321",
    employeeAddress := some "9 Oak Ave, Portland, OR 97201" }

/-- A raw record carrying only a three-token employee name. -/
def w2NameOnly : W2Data := { employeeName := some "John Q Public" }

/-- A raw record with identity data but no monetary amounts. -/
def w2NoMoney : W2Data := { employeeName := some "Jane Roe" }

/-- The empty raw record. -/
def w2Empty : W2Data := {}

/-- An existing record whose only populated line is a payment line. -/
def formWithPayment : Form1040Data := { line25b := some 1 }

/-- A raw record passing all three required-field validator checks while
triggering all three warnings. -/
def w2Valid : W2Data :=
  { employeeName := some "John Doe", employeeSSN := some "123456789",
    wages := .num 50000 }

/-- A one-object store whose reference `0` holds the empty record. -/
def storeExample : Store := ⟨fun _ => emptyForm, 1⟩

/-! Projection of an `if` on records, one instance per field, so that `simp`
can push field projections through the branching of the mapping phases. -/

@[simp]
theorem ite_firstName (c : Prop) [Decidable c] (a b : Form1040Data) :
    (if c then a else b).firstName = if c then a.firstName else b.firstName := apply_ite _ c a b

@[simp]
theorem ite_lastName (c : Prop) [Decidable c] (a b : Form1040Data) :
    (if c then a else b).lastName = if c then a.lastName else b.lastName := apply_ite _ c a b

@[simp]
theorem ite_ssn (c : Prop) [Decidable c] (a b : Form1040Data) :
    (if c then a else b).ssn = if c then a.ssn else b.ssn := apply_ite _ c a b

@[simp]
theorem ite_address (c : Prop) [Decidable c] (a b : Form1040Data) :
    (if c then a else b).address = if c then a.address else b.address := apply_ite _ c a b

@[simp]
theorem ite_city (c : Prop) [Decidable c] (a b : Form1040Data) :
    (if c then a else b).city = if c then a.city else b.city := apply_ite _ c a b

@[simp]
theorem ite_state (c : Prop) [Decidable c] (a b : Form1040Data) :
    (if c then a else b).state = if c then a.state else b.state := apply_ite _ c a b

@[simp]
theorem ite_zipCode (c : Prop) [Decidable c] (a b : Form1040Data) :
    (if c then a else b).zipCode = if c then a.zipCode else b.zipCode := apply_ite _ c a b

@[simp]
theorem ite_filingStatus (c : Prop) [Decidable c] (a b : Form1040Data) :
    (if c then a else b).filingStatus = if c then a.filingStatus else b.filingStatus := apply_ite _ c a b

@[simp]
theorem ite_line1 (c : Prop) [Decidable c] (a b : Form1040Data) :
    (if c then a else b).line1 = if c then a.line1 else b.line1 := apply_ite _ c a b

@[simp]
theorem ite_line2b (c : Prop) [Decidable c] (a b : Form1040Data) :
    (if c then a else b).line2b = if c then a.line2b else b.line2b := apply_ite _ c a b

@[simp]
theorem ite_line3b (c : Prop) [Decidable c] (a b : Form1040Data) :
    (if c then a else b).line3b = if c then a.line3b else b.line3b := apply_ite _ c a b

@[simp]
theorem ite_line4b (c : Prop) [Decidable c] (a b : Form1040Data) :
    (if c then a else b).line4b = if c then a.line4b else b.line4b := apply_ite _ c a b

@[simp]
theorem ite_line5b (c : Prop) [Decidable c] (a b : Form1040Data) :
    (if c then a else b).line5b = if c then a.line5b else b.line5b := apply_ite _ c a b

@[simp]
theorem ite_line6b (c : Prop) [Decidable c] (a b : Form1040Data) :
    (if c then a else b).line6b = if c then a.line6b else b.line6b := apply_ite _ c a b

@[simp]
theorem ite_line7 (c : Prop) [Decidable c] (a b : Form1040Data) :
    (if c then a else b).line7 = if c then a.line7 else b.line7 := apply_ite _ c a b

@[simp]
theorem ite_line8 (c : Prop) [Decidable c] (a b : Form1040Data) :
    (if c then a else b).line8 = if c then a.line8 else b.line8 := apply_ite _ c a b

@[simp]
theorem ite_line9 (c : Prop) [Decidable c] (a b : Form1040Data) :
    (if c then a else b).line9 = if c then a.line9 else b.line9 := apply_ite _ c a b

@[simp]
theorem ite_line11 (c : Prop) [Decidable c] (a b : Form1040Data) :
    (if c then a else b).line11 = if c then a.line11 else b.line11 := apply_ite _ c a b

@[simp]
theorem ite_line12 (c : Prop) [Decidable c] (a b : Form1040Data) :
    (if c then a else b).line12 = if c then a.line12 else b.line12 := apply_ite _ c a b

@[simp]
theorem ite_line13 (c : Prop) [Decidable c] (a b : Form1040Data) :
    (if c then a else b).line13 = if c then a.line13 else b.line13 := apply_ite _ c a b

@[simp]
theorem ite_line15 (c : Prop) [Decidable c] (a b : Form1040Data) :
    (if c then a else b).line15 = if c then a.line15 else b.line15 := apply_ite _ c a b

@[simp]
theorem ite_line16 (c : Prop) [Decidable c] (a b : Form1040Data) :
    (if c then a else b).line16 = if c then a.line16 else b.line16 := apply_ite _ c a b

@[simp]
theorem ite_line17 (c : Prop) [Decidable c] (a b : Form1040Data) :
    (if c then a else b).line17 = if c then a.line17 else b.line17 := apply_ite _ c a b

@[simp]
theorem ite_line23 (c : Prop) [Decidable c] (a b : Form1040Data) :
    (if c then a else b).line23 = if c then a.line23 else b.line23 := apply_ite _ c a b

@[simp]
theorem ite_line24 (c : Prop) [Decidable c] (a b : Form1040Data) :
    (if c then a else b).line24 = if c then a.line24 else b.line24 := apply_ite _ c a b

@[simp]
theorem ite_line25a (c : Prop) [Decidable c] (a b : Form1040Data) :
    (if c then a else b).line25a = if c then a.line25a else b.line25a := apply_ite _ c a b

@[simp]
theorem ite_line25b (c : Prop) [Decidable c] (a b : Form1040Data) :
    (if c then a else b).line25b = if c then a.line25b else b.line25b := apply_ite _ c a b

@[simp]
theorem ite_line25c (c : Prop) [Decidable c] (a b : Form1040Data) :
    (if c then a else b).line25c = if c then a.line25c else b.line25c := apply_ite _ c a b

@[simp]
theorem ite_line25d (c : Prop) [Decidable c] (a b : Form1040Data) :
    (if c then a else b).line25d = if c then a.line25d else b.line25d := apply_ite _ c a b

@[simp]
theorem ite_line32 (c : Prop) [Decidable c] (a b : Form1040Data) :
    (if c then a else b).line32 = if c then a.line32 else b.line32 := apply_ite _ c a b

@[simp]
theorem ite_line33 (c : Prop) [Decidable c] (a b : Form1040Data) :
    (if c then a else b).line33 = if c then a.line33 else b.line33 := apply_ite _ c a b

@[simp]
theorem ite_line34 (c : Prop) [Decidable c] (a b : Form1040Data) :
    (if c then a else b).line34 = if c then a.line34 else b.line34 := apply_ite _ c a b

@[simp]
theorem ite_line37 (c : Prop) [Decidable c] (a b : Form1040Data) :
    (if c then a else b).line37 = if c then a.line37 else b.line37 := apply_ite _ c a b

/-! Merge-level projection lemmas: the value of every record field after one
`mapW2ToForm1040` call, in terms of the inputs. -/

/-- The merge never writes `line2b`. -/
theorem merge_line2b (w : W2Data) (f : Form1040Data) :
    (mapW2ToForm1040 w f).line2b = f.line2b := by
  simp [mapW2ToForm1040, recomputeDerived, applyWithholdingMapping, applyWagesMapping,
    applyAddressMapping, applySSNMapping, applyNameMapping, calculateTotalIncome]

/-- The merge never writes `line3b`. -/
theorem merge_line3b (w : W2Data) (f : Form1040Data) :
    (mapW2ToForm1040 w f).line3b = f.line3b := by
  simp [mapW2ToForm1040, recomputeDerived, applyWithholdingMapping, applyWagesMapping,
    applyAddressMapping, applySSNMapping, applyNameMapping, calculateTotalIncome]

/-- The merge never writes `line4b`. -/
theorem merge_line4b (w : W2Data) (f : Form1040Data) :
    (mapW2ToForm1040 w f).line4b = f.line4b := by
  simp [mapW2ToForm1040, recomputeDerived, applyWithholdingMapping, applyWagesMapping,
    applyAddressMapping, applySSNMapping, applyNameMapping, calculateTotalIncome]

/-- The merge never writes `line5b`. -/
theorem merge_line5b (w : W2Data) (f : Form1040Data) :
    (mapW2ToForm1040 w f).line5b = f.line5b := by
  simp [mapW2ToForm1040, recomputeDerived, applyWithholdingMapping, applyWagesMapping,
    applyAddressMapping, applySSNMapping, applyNameMapping, calculateTotalIncome]

/-- The merge never writes `line6b`. -/
theorem merge_line6b (w : W2Data) (f : Form1040Data) :
    (mapW2ToForm1040 w f).line6b = f.line6b := by
  simp [mapW2ToForm1040, recomputeDerived, applyWithholdingMapping, applyWagesMapping,
    applyAddressMapping, applySSNMapping, applyNameMapping, calculateTotalIncome]

/-- The merge never writes `line7`. -/
theorem merge_line7 (w : W2Data) (f : Form1040Data) :
    (mapW2ToForm1040 w f).line7 = f.line7 := by
  simp [mapW2ToForm1040, recomputeDerived, applyWithholdingMapping, applyWagesMapping,
    applyAddressMapping, applySSNMapping, applyNameMapping, calculateTotalIncome]

/-- The merge never writes `line8`. -/
theorem merge_line8 (w : W2Data) (f : Form1040Data) :
    (mapW2ToForm1040 w f).line8 = f.line8 := by
  simp [mapW2ToForm1040, recomputeDerived, applyWithholdingMapping, applyWagesMapping,
    applyAddressMapping, applySSNMapping, applyNameMapping, calculateTotalIncome]

/-- The merge never writes `line13`. -/
theorem merge_line13 (w : W2Data) (f : Form1040Data) :
    (mapW2ToForm1040 w f).line13 = f.line13 := by
  simp [mapW2ToForm1040, recomputeDerived, applyWithholdingMapping, applyWagesMapping,
    applyAddressMapping, applySSNMapping, applyNameMapping, calculateTotalIncome]

/-- The merge never writes `line17`. -/
theorem merge_line17 (w : W2Data) (f : Form1040Data) :
    (mapW2ToForm1040 w f).line17 = f.line17 := by
  simp [mapW2ToForm1040, recomputeDerived, applyWithholdingMapping, applyWagesMapping,
    applyAddressMapping, applySSNMapping, applyNameMapping, calculateTotalIncome]

/-- The merge never writes `line23`. -/
theorem merge_line23 (w : W2Data) (f : Form1040Data) :
    (mapW2ToForm1040 w f).line23 = f.line23 := by
  simp [mapW2ToForm1040, recomputeDerived, applyWithholdingMapping, applyWagesMapping,
    applyAddressMapping, applySSNMapping, applyNameMapping, calculateTotalIncome]

/-- The merge never writes `line25b`. -/
theorem merge_line25b (w : W2Data) (f : Form1040Data) :
    (mapW2ToForm1040 w f).line25b = f.line25b := by
  simp [mapW2ToForm1040, recomputeDerived, applyWithholdingMapping, applyWagesMapping,
    applyAddressMapping, applySSNMapping, applyNameMapping, calculateTotalIncome]

/-- The merge never writes `line25c`. -/
theorem merge_line25c (w : W2Data) (f : Form1040Data) :
    (mapW2ToForm1040 w f).line25c = f.line25c := by
  simp [mapW2ToForm1040, recomputeDerived, applyWithholdingMapping, applyWagesMapping,
    applyAddressMapping, applySSNMapping, applyNameMapping, calculateTotalIncome]

/-- The merge never writes `line25d`. -/
theorem merge_line25d (w : W2Data) (f : Form1040Data) :
    (mapW2ToForm1040 w f).line25d = f.line25d := by
  simp [mapW2ToForm1040, recomputeDerived, applyWithholdingMapping, applyWagesMapping,
    applyAddressMapping, applySSNMapping, applyNameMapping, calculateTotalIncome]

/-- The merge never writes `filingStatus`. -/
theorem merge_filingStatus (w : W2Data) (f : Form1040Data) :
    (mapW2ToForm1040 w f).filingStatus = f.filingStatus := by
  simp [mapW2ToForm1040, recomputeDerived, applyWithholdingMapping, applyWagesMapping,
    applyAddressMapping, applySSNMapping, applyNameMapping, calculateTotalIncome]

/-- After a merge, `firstName` is whatever the name-mapping phase produced. -/
theorem merge_firstName (w : W2Data) (f : Form1040Data) :
    (mapW2ToForm1040 w f).firstName = (applyNameMapping w f).firstName := by
  simp [mapW2ToForm1040, recomputeDerived, applyWithholdingMapping, applyWagesMapping,
    applyAddressMapping, applySSNMapping, calculateTotalIncome]

/-- After a merge, `lastName` is whatever the name-mapping phase produced. -/
theorem merge_lastName (w : W2Data) (f : Form1040Data) :
    (mapW2ToForm1040 w f).lastName = (applyNameMapping w f).lastName := by
  simp [mapW2ToForm1040, recomputeDerived, applyWithholdingMapping, applyWagesMapping,
    applyAddressMapping, applySSNMapping, calculateTotalIncome]

/-- After a merge, `ssn` is whatever the SSN-mapping phase produced. -/
theorem merge_ssn (w : W2Data) (f : Form1040Data) :
    (mapW2ToForm1040 w f).ssn = (applySSNMapping w (applyNameMapping w f)).ssn := by
  simp [mapW2ToForm1040, recomputeDerived, applyWithholdingMapping, applyWagesMapping,
    applyAddressMapping, calculateTotalIncome]

/-- After a merge, `address` is whatever the address-mapping phase produced. -/
theorem merge_address (w : W2Data) (f : Form1040Data) :
    (mapW2ToForm1040 w f).address =
      (applyAddressMapping w (applySSNMapping w (applyNameMapping w f))).address := by
  simp [mapW2ToForm1040, recomputeDerived, applyWithholdingMapping, applyWagesMapping,
    calculateTotalIncome]

/-- After a merge, `city` is whatever the address-mapping phase produced. -/
theorem merge_city (w : W2Data) (f : Form1040Data) :
    (mapW2ToForm1040 w f).city =
      (applyAddressMapping w (applySSNMapping w (applyNameMapping w f))).city := by
  simp [mapW2ToForm1040, recomputeDerived, applyWithholdingMapping, applyWagesMapping,
    calculateTotalIncome]

/-- After a merge, `state` is whatever the address-mapping phase produced. -/
theorem merge_state (w : W2Data) (f : Form1040Data) :
    (mapW2ToForm1040 w f).state =
      (applyAddressMapping w (applySSNMapping w (applyNameMapping w f))).state := by
  simp [mapW2ToForm1040, recomputeDerived, applyWithholdingMapping, applyWagesMapping,
    calculateTotalIncome]

/-- After a merge, `zipCode` is whatever the address-mapping phase produced. -/
theorem merge_zipCode (w : W2Data) (f : Form1040Data) :
    (mapW2ToForm1040 w f).zipCode =
      (applyAddressMapping w (applySSNMapping w (applyNameMapping w f))).zipCode := by
  simp [mapW2ToForm1040, recomputeDerived, applyWithholdingMapping, applyWagesMapping,
    calculateTotalIncome]

/-- After a merge, `line1` holds the old value plus the parsed wages when the
latter are strictly positive, and is untouched otherwise. -/
theorem merge_line1 (w : W2Data) (f : Form1040Data) :
    (mapW2ToForm1040 w f).line1 =
      if parseAmount w.wages > 0 then some (orZero f.line1 + parseAmount w.wages)
      else f.line1 := by
  simp [mapW2ToForm1040, recomputeDerived, applyWithholdingMapping, applyWagesMapping,
    applyAddressMapping, applySSNMapping, applyNameMapping, calculateTotalIncome]

/-- After a merge, `line25a` holds the old value plus the parsed withholding
when the latter is strictly positive, and is untouched otherwise. -/
theorem merge_line25a (w : W2Data) (f : Form1040Data) :
    (mapW2ToForm1040 w f).line25a =
      if parseAmount w.federalTaxWithheld > 0 then
        some (orZero f.line25a + parseAmount w.federalTaxWithheld)
      else f.line25a := by
  simp [mapW2ToForm1040, recomputeDerived, applyWithholdingMapping, applyWagesMapping,
    applyAddressMapping, applySSNMapping, applyNameMapping, calculateTotalIncome]

/-- After a merge, the total-income line is the sum of the updated wage line
and the untouched other income lines of the existing record. -/
theorem merge_line9 (w : W2Data) (f : Form1040Data) :
    (mapW2ToForm1040 w f).line9 =
      some (orZero (mapW2ToForm1040 w f).line1 + orZero f.line2b + orZero f.line3b +
        orZero f.line4b + orZero f.line5b + orZero f.line6b + orZero f.line7 +
        orZero f.line8) := by
  simp [mapW2ToForm1040, recomputeDerived, applyWithholdingMapping, applyWagesMapping,
    applyAddressMapping, applySSNMapping, applyNameMapping, calculateTotalIncome]

/-- After a merge, the AGI line equals the total-income line. -/
theorem merge_line11 (w : W2Data) (f : Form1040Data) :
    (mapW2ToForm1040 w f).line11 = (mapW2ToForm1040 w f).line9 := by
  simp [mapW2ToForm1040, recomputeDerived, applyWithholdingMapping, applyWagesMapping,
    applyAddressMapping, applySSNMapping, applyNameMapping, calculateTotalIncome]

/-- After a merge, the standard-deduction line is set from the lookup table
when it was falsy and the filing status is truthy, and untouched otherwise. -/
theorem merge_line12 (w : W2Data) (f : Form1040Data) :
    (mapW2ToForm1040 w f).line12 =
      if numFalsy f.line12 && strTruthy f.filingStatus then
        some (getStandardDeduction (f.filingStatus.getD ""))
      else f.line12 := by
  simp [mapW2ToForm1040, recomputeDerived, applyWithholdingMapping, applyWagesMapping,
    applyAddressMapping, applySSNMapping, applyNameMapping, calculateTotalIncome]

/-- After a merge, taxable income is AGI minus the (possibly just set)
standard deduction minus the itemized line, floored at zero. -/
theorem merge_line15 (w : W2Data) (f : Form1040Data) :
    (mapW2ToForm1040 w f).line15 =
      some (max 0 (orZero (mapW2ToForm1040 w f).line11 -
        orZero (mapW2ToForm1040 w f).line12 - orZero f.line13)) := by
  simp [mapW2ToForm1040, recomputeDerived, applyWithholdingMapping, applyWagesMapping,
    applyAddressMapping, applySSNMapping, applyNameMapping, calculateTotalIncome]

/-- After a merge, the tax-liability line is the bracket computation applied
to the just-computed taxable income and the record's filing status. -/
theorem merge_line16 (w : W2Data) (f : Form1040Data) :
    (mapW2ToForm1040 w f).line16 =
      some (calculateTaxLiability (orZero (mapW2ToForm1040 w f).line15) f.filingStatus) := by
  simp [mapW2ToForm1040, recomputeDerived, applyWithholdingMapping, applyWagesMapping,
    applyAddressMapping, applySSNMapping, applyNameMapping, calculateTotalIncome]

/-- After a merge, total tax is tax liability plus the other-tax lines. -/
theorem merge_line24 (w : W2Data) (f : Form1040Data) :
    (mapW2ToForm1040 w f).line24 =
      some (orZero (mapW2ToForm1040 w f).line16 + orZero f.line17 + orZero f.line23) := by
  simp [mapW2ToForm1040, recomputeDerived, applyWithholdingMapping, applyWagesMapping,
    applyAddressMapping, applySSNMapping, applyNameMapping, calculateTotalIncome]

/-- After a merge, total payments is the sum of the four withholding lines. -/
theorem merge_line32 (w : W2Data) (f : Form1040Data) :
    (mapW2ToForm1040 w f).line32 =
      some (orZero (mapW2ToForm1040 w f).line25a + orZero f.line25b + orZero f.line25c +
        orZero f.line25d) := by
  simp [mapW2ToForm1040, recomputeDerived, applyWithholdingMapping, applyWagesMapping,
    applyAddressMapping, applySSNMapping, applyNameMapping, calculateTotalIncome]

/-- After a merge, the refund line is payments minus tax when payments exceed
tax, and zero otherwise. -/
theorem merge_line33 (w : W2Data) (f : Form1040Data) :
    (mapW2ToForm1040 w f).line33 =
      if orZero (mapW2ToForm1040 w f).line32 > orZero (mapW2ToForm1040 w f).line24 then
        some (orZero (mapW2ToForm1040 w f).line32 - orZero (mapW2ToForm1040 w f).line24)
      else some 0 := by
  simp [mapW2ToForm1040, recomputeDerived, applyWithholdingMapping, applyWagesMapping,
    applyAddressMapping, applySSNMapping, applyNameMapping, calculateTotalIncome]

/-- After a merge, the requested-refund line equals the refund line. -/
theorem merge_line34 (w : W2Data) (f : Form1040Data) :
    (mapW2ToForm1040 w f).line34 = (mapW2ToForm1040 w f).line33 := by
  simp [mapW2ToForm1040, recomputeDerived, applyWithholdingMapping, applyWagesMapping,
    applyAddressMapping, applySSNMapping, applyNameMapping, calculateTotalIncome]

/-- After a merge, the amount-owed line is tax minus payments when payments
do not exceed tax, and zero otherwise. -/
theorem merge_line37 (w : W2Data) (f : Form1040Data) :
    (mapW2ToForm1040 w f).line37 =
      if orZero (mapW2ToForm1040 w f).line32 > orZero (mapW2ToForm1040 w f).line24 then
        some 0
      else
        some (orZero (mapW2ToForm1040 w f).line24 - orZero (mapW2ToForm1040 w f).line32) := by
  simp [mapW2ToForm1040, recomputeDerived, applyWithholdingMapping, applyWagesMapping,
    applyAddressMapping, applySSNMapping, applyNameMapping, calculateTotalIncome]

/-! Projection lemmas for the derived-line recomputation phase alone. -/

/-- Recomputing derived lines never writes `firstName`. -/
@[simp]
theorem derived_firstName (f : Form1040Data) :
    (recomputeDerived f).firstName = f.firstName := by
  simp [recomputeDerived]

/-- Recomputing derived lines never writes `lastName`. -/
@[simp]
theorem derived_lastName (f : Form1040Data) :
    (recomputeDerived f).lastName = f.lastName := by
  simp [recomputeDerived]

/-- Recomputing derived lines never writes `ssn`. -/
@[simp]
theorem derived_ssn (f : Form1040Data) :
    (recomputeDerived f).ssn = f.ssn := by
  simp [recomputeDerived]

/-- Recomputing derived lines never writes `address`. -/
@[simp]
theorem derived_address (f : Form1040Data) :
    (recomputeDerived f).address = f.address := by
  simp [recomputeDerived]

/-- Recomputing derived lines never writes `city`. -/
@[simp]
theorem derived_city (f : Form1040Data) :
    (recomputeDerived f).city = f.city := by
  simp [recomputeDerived]

/-- Recomputing derived lines never writes `state`. -/
@[simp]
theorem derived_state (f : Form1040Data) :
    (recomputeDerived f).state = f.state := by
  simp [recomputeDerived]

/-- Recomputing derived lines never writes `zipCode`. -/
@[simp]
theorem derived_zipCode (f : Form1040Data) :
    (recomputeDerived f).zipCode = f.zipCode := by
  simp [recomputeDerived]

/-- Recomputing derived lines never writes `filingStatus`. -/
@[simp]
theorem derived_filingStatus (f : Form1040Data) :
    (recomputeDerived f).filingStatus = f.filingStatus := by
  simp [recomputeDerived]

/-- Recomputing derived lines never writes `line1`. -/
@[simp]
theorem derived_line1 (f : Form1040Data) :
    (recomputeDerived f).line1 = f.line1 := by
  simp [recomputeDerived]

/-- Recomputing derived lines never writes `line2b`. -/
@[simp]
theorem derived_line2b (f : Form1040Data) :
    (recomputeDerived f).line2b = f.line2b := by
  simp [recomputeDerived]

/-- Recomputing derived lines never writes `line3b`. -/
@[simp]
theorem derived_line3b (f : Form1040Data) :
    (recomputeDerived f).line3b = f.line3b := by
  simp [recomputeDerived]

/-- Recomputing derived lines never writes `line4b`. -/
@[simp]
theorem derived_line4b (f : Form1040Data) :
    (recomputeDerived f).line4b = f.line4b := by
  simp [recomputeDerived]

/-- Recomputing derived lines never writes `line5b`. -/
@[simp]
theorem derived_line5b (f : Form1040Data) :
    (recomputeDerived f).line5b = f.line5b := by
  simp [recomputeDerived]

/-- Recomputing derived lines never writes `line6b`. -/
@[simp]
theorem derived_line6b (f : Form1040Data) :
    (recomputeDerived f).line6b = f.line6b := by
  simp [recomputeDerived]

/-- Recomputing derived lines never writes `line7`. -/
@[simp]
theorem derived_line7 (f : Form1040Data) :
    (recomputeDerived f).line7 = f.line7 := by
  simp [recomputeDerived]

/-- Recomputing derived lines never writes `line8`. -/
@[simp]
theorem derived_line8 (f : Form1040Data) :
    (recomputeDerived f).line8 = f.line8 := by
  simp [recomputeDerived]

/-- Recomputing derived lines never writes `line13`. -/
@[simp]
theorem derived_line13 (f : Form1040Data) :
    (recomputeDerived f).line13 = f.line13 := by
  simp [recomputeDerived]

/-- Recomputing derived lines never writes `line17`. -/
@[simp]
theorem derived_line17 (f : Form1040Data) :
    (recomputeDerived f).line17 = f.line17 := by
  simp [recomputeDerived]

/-- Recomputing derived lines never writes `line23`. -/
@[simp]
theorem derived_line23 (f : Form1040Data) :
    (recomputeDerived f).line23 = f.line23 := by
  simp [recomputeDerived]

/-- Recomputing derived lines never writes `line25a`. -/
@[simp]
theorem derived_line25a (f : Form1040Data) :
    (recomputeDerived f).line25a = f.line25a := by
  simp [recomputeDerived]

/-- Recomputing derived lines never writes `line25b`. -/
@[simp]
theorem derived_line25b (f : Form1040Data) :
    (recomputeDerived f).line25b = f.line25b := by
  simp [recomputeDerived]

/-- Recomputing derived lines never writes `line25c`. -/
@[simp]
theorem derived_line25c (f : Form1040Data) :
    (recomputeDerived f).line25c = f.line25c := by
  simp [recomputeDerived]

/-- Recomputing derived lines never writes `line25d`. -/
@[simp]
theorem derived_line25d (f : Form1040Data) :
    (recomputeDerived f).line25d = f.line25d := by
  simp [recomputeDerived]

/-- The recomputed total-income line. -/
theorem derived_line9 (f : Form1040Data) :
    (recomputeDerived f).line9 = some (calculateTotalIncome f) := by
  simp [recomputeDerived]

/-- The recomputed AGI line equals the recomputed total-income line. -/
theorem derived_line11 (f : Form1040Data) :
    (recomputeDerived f).line11 = (recomputeDerived f).line9 := by
  simp [recomputeDerived]

/-- The recomputed standard-deduction line. -/
theorem derived_line12 (f : Form1040Data) :
    (recomputeDerived f).line12 =
      if numFalsy f.line12 && strTruthy f.filingStatus then
        some (getStandardDeduction (f.filingStatus.getD ""))
      else f.line12 := by
  simp [recomputeDerived]

/-- The recomputed taxable-income line. -/
theorem derived_line15 (f : Form1040Data) :
    (recomputeDerived f).line15 =
      some (max 0 (orZero (recomputeDerived f).line11 - orZero (recomputeDerived f).line12 -
        orZero f.line13)) := by
  simp [recomputeDerived]

/-- The recomputed tax-liability line. -/
theorem derived_line16 (f : Form1040Data) :
    (recomputeDerived f).line16 =
      some (calculateTaxLiability (orZero (recomputeDerived f).line15) f.filingStatus) := by
  simp [recomputeDerived]

/-- The recomputed total-tax line. -/
theorem derived_line24 (f : Form1040Data) :
    (recomputeDerived f).line24 =
      some (orZero (recomputeDerived f).line16 + orZero f.line17 + orZero f.line23) := by
  simp [recomputeDerived]

/-- The recomputed total-payments line. -/
theorem derived_line32 (f : Form1040Data) :
    (recomputeDerived f).line32 =
      some (orZero f.line25a + orZero f.line25b + orZero f.line25c + orZero f.line25d) := by
  simp [recomputeDerived]

/-- The recomputed refund line. -/
theorem derived_line33 (f : Form1040Data) :
    (recomputeDerived f).line33 =
      if orZero (recomputeDerived f).line32 > orZero (recomputeDerived f).line24 then
        some (orZero (recomputeDerived f).line32 - orZero (recomputeDerived f).line24)
      else some 0 := by
  simp [recomputeDerived]

/-- The recomputed requested-refund line equals the recomputed refund line. -/
theorem derived_line34 (f : Form1040Data) :
    (recomputeDerived f).line34 = (recomputeDerived f).line33 := by
  simp [recomputeDerived]

/-- The recomputed amount-owed line. -/
theorem derived_line37 (f : Form1040Data) :
    (recomputeDerived f).line37 =
      if orZero (recomputeDerived f).line32 > orZero (recomputeDerived f).line24 then some 0
      else
        some (orZero (recomputeDerived f).line24 - orZero (recomputeDerived f).line32) := by
  simp [recomputeDerived]


/-! Helper lemmas shared by the claim proofs. -/

@[simp]
theorem orZero_some (q : ℚ) : orZero (some q) = q := rfl

@[simp]
theorem orZero_none : orZero none = 0 := rfl

/-- The standard-deduction table contains no zero entry. -/
theorem getStandardDeduction_ne_zero (s : String) : getStandardDeduction s ≠ 0 := by
  unfold getStandardDeduction
  split_ifs <;> norm_num

/-- The name mapping never writes `ssn`. -/
@[simp]
theorem nameMapping_ssn (w : W2Data) (f : Form1040Data) :
    (applyNameMapping w f).ssn = f.ssn := by
  simp [applyNameMapping]

/-- The name mapping never writes `address`. -/
@[simp]
theorem nameMapping_address (w : W2Data) (f : Form1040Data) :
    (applyNameMapping w f).address = f.address := by
  simp [applyNameMapping]

/-- The name mapping never writes `city`. -/
@[simp]
theorem nameMapping_city (w : W2Data) (f : Form1040Data) :
    (applyNameMapping w f).city = f.city := by
  simp [applyNameMapping]

/-- The name mapping never writes `state`. -/
@[simp]
theorem nameMapping_state (w : W2Data) (f : Form1040Data) :
    (applyNameMapping w f).state = f.state := by
  simp [applyNameMapping]

/-- The name mapping never writes `zipCode`. -/
@[simp]
theorem nameMapping_zipCode (w : W2Data) (f : Form1040Data) :
    (applyNameMapping w f).zipCode = f.zipCode := by
  simp [applyNameMapping]

/-- The SSN mapping never writes `address`. -/
@[simp]
theorem ssnMapping_address (w : W2Data) (f : Form1040Data) :
    (applySSNMapping w f).address = f.address := by
  simp [applySSNMapping]

/-- The SSN mapping never writes `city`. -/
@[simp]
theorem ssnMapping_city (w : W2Data) (f : Form1040Data) :
    (applySSNMapping w f).city = f.city := by
  simp [applySSNMapping]

/-- The SSN mapping never writes `state`. -/
@[simp]
theorem ssnMapping_state (w : W2Data) (f : Form1040Data) :
    (applySSNMapping w f).state = f.state := by
  simp [applySSNMapping]

/-- The SSN mapping never writes `zipCode`. -/
@[simp]
theorem ssnMapping_zipCode (w : W2Data) (f : Form1040Data) :
    (applySSNMapping w f).zipCode = f.zipCode := by
  simp [applySSNMapping]

/-- Re-running the name mapping on any record that already carries the name
fields the mapping produced is a no-op. -/
theorem applyNameMapping_noop (w : W2Data) (g y : Form1040Data)
    (h1 : g.firstName = (applyNameMapping w y).firstName)
    (h2 : g.lastName = (applyNameMapping w y).lastName) :
    applyNameMapping w g = g := by
  by_cases hw : strTruthy w.employeeName
  · by_cases hy : strTruthy y.firstName
    · have hfy : (applyNameMapping w y).firstName = y.firstName := by
        simp [applyNameMapping, hy]
      rw [hfy] at h1
      simp [applyNameMapping, h1, hy]
    · have hfy : (applyNameMapping w y).firstName =
          some ((jsSplitWS (jsTrim (w.employeeName.getD ""))).headD "") := by
        simp [applyNameMapping, hw, hy]
      have hly : (applyNameMapping w y).lastName =
          some (String.intercalate " " ((jsSplitWS (jsTrim (w.employeeName.getD ""))).drop 1)) := by
        simp [applyNameMapping, hw, hy]
      rw [hfy] at h1
      rw [hly] at h2
      by_cases hg : strTruthy g.firstName
      · simp [applyNameMapping, hg]
      · unfold applyNameMapping
        rw [if_pos (by simp [hw, hg])]
        ext <;> simp [h1, h2]
  · simp [applyNameMapping, hw]

/-- Re-running the SSN mapping on any record that already carries the SSN the
mapping produced is a no-op. -/
theorem applySSNMapping_noop (w : W2Data) (g y : Form1040Data)
    (h : g.ssn = (applySSNMapping w y).ssn) :
    applySSNMapping w g = g := by
  by_cases hw : strTruthy w.employeeSSN
  · by_cases hy : strTruthy y.ssn
    · have hsy : (applySSNMapping w y).ssn = y.ssn := by simp [applySSNMapping, hy]
      rw [hsy] at h
      simp [applySSNMapping, h, hy]
    · have hsy : (applySSNMapping w y).ssn = some (formatSSN (w.employeeSSN.getD "")) := by
        simp [applySSNMapping, hw, hy]
      rw [hsy] at h
      by_cases hg : strTruthy g.ssn
      · simp [applySSNMapping, hg]
      · unfold applySSNMapping
        rw [if_pos (by simp [hw, hg])]
        ext <;> simp [h]
  · simp [applySSNMapping, hw]

/-- Re-running the address mapping on any record that already carries the
address fields the mapping produced is a no-op. -/
theorem applyAddressMapping_noop (w : W2Data) (g y : Form1040Data)
    (h1 : g.address = (applyAddressMapping w y).address)
    (h2 : g.city = (applyAddressMapping w y).city)
    (h3 : g.state = (applyAddressMapping w y).state)
    (h4 : g.zipCode = (applyAddressMapping w y).zipCode) :
    applyAddressMapping w g = g := by
  by_cases hw : strTruthy w.employeeAddress
  · by_cases hy : strTruthy y.address
    · have hay : (applyAddressMapping w y).address = y.address := by
        simp [applyAddressMapping, hy]
      rw [hay] at h1
      simp [applyAddressMapping, h1, hy]
    · have hay : (applyAddressMapping w y).address =
          some (parseAddress (w.employeeAddress.getD "")).street := by
        simp [applyAddressMapping, hw, hy]
      have hcy : (applyAddressMapping w y).city =
          some (parseAddress (w.employeeAddress.getD "")).city := by
        simp [applyAddressMapping, hw, hy]
      have hsy : (applyAddressMapping w y).state =
          some (parseAddress (w.employeeAddress.getD "")).state := by
        simp [applyAddressMapping, hw, hy]
      have hzy : (applyAddressMapping w y).zipCode =
          some (parseAddress (w.employeeAddress.getD "")).zipCode := by
        simp [applyAddressMapping, hw, hy]
      rw [hay] at h1
      rw [hcy] at h2
      rw [hsy] at h3
      rw [hzy] at h4
      by_cases hg : strTruthy g.address
      · simp [applyAddressMapping, hg]
      · unfold applyAddressMapping
        rw [if_pos (by simp [hw, hg])]
        ext <;> simp [h1, h2, h3, h4]
  · simp [applyAddressMapping, hw]

/-- Total income only depends on lines the recomputation never writes. -/
theorem calculateTotalIncome_derived (f : Form1040Data) :
    calculateTotalIncome (recomputeDerived f) = calculateTotalIncome f := by
  simp [calculateTotalIncome]

/-- Recomputing the derived lines twice gives the same record as once. -/
theorem recomputeDerived_idem (f : Form1040Data) :
    recomputeDerived (recomputeDerived f) = recomputeDerived f := by
  have h9 : (recomputeDerived (recomputeDerived f)).line9 = (recomputeDerived f).line9 := by
    rw [derived_line9, derived_line9, calculateTotalIncome_derived]
  have h11 : (recomputeDerived (recomputeDerived f)).line11 = (recomputeDerived f).line11 := by
    rw [derived_line11, derived_line11, h9]
  have h12 : (recomputeDerived (recomputeDerived f)).line12 = (recomputeDerived f).line12 := by
    rw [derived_line12 (recomputeDerived f), derived_line12 f]
    by_cases hc : (numFalsy f.line12 && strTruthy f.filingStatus) = true
    · simp only [derived_filingStatus, hc, if_pos]
      simp [numFalsy, orZero, getStandardDeduction_ne_zero]
    · simp [derived_line12, derived_filingStatus, hc]
  have h15 : (recomputeDerived (recomputeDerived f)).line15 = (recomputeDerived f).line15 := by
    rw [derived_line15 (recomputeDerived f), derived_line15 f, h11, h12]
    simp
  have h16 : (recomputeDerived (recomputeDerived f)).line16 = (recomputeDerived f).line16 := by
    rw [derived_line16 (recomputeDerived f), derived_line16 f, h15]
    simp
  have h24 : (recomputeDerived (recomputeDerived f)).line24 = (recomputeDerived f).line24 := by
    rw [derived_line24 (recomputeDerived f), derived_line24 f, h16]
    simp
  have h32 : (recomputeDerived (recomputeDerived f)).line32 = (recomputeDerived f).line32 := by
    rw [derived_line32 (recomputeDerived f), derived_line32 f]
    simp
  have h33 : (recomputeDerived (recomputeDerived f)).line33 = (recomputeDerived f).line33 := by
    rw [derived_line33 (recomputeDerived f), derived_line33 f, h24, h32]
  have h34 : (recomputeDerived (recomputeDerived f)).line34 = (recomputeDerived f).line34 := by
    rw [derived_line34, derived_line34, h33]
  have h37 : (recomputeDerived (recomputeDerived f)).line37 = (recomputeDerived f).line37 := by
    rw [derived_line37 (recomputeDerived f), derived_line37 f, h24, h32]
  ext <;> simp [h9, h11, h12, h15, h16, h24, h32, h33, h34, h37]


/-- C1: merging wages 50000 and withholding 5000 into a single-filer record
yields total income 50000, AGI 50000, standard deduction 13850, taxable
income 36150, tax liability 4118.00, total tax 4118.00, total payments 5000,
refund 882.00 and amount owed 0. -/
theorem claim_C1 :
    (mapW2ToForm1040 w2Example form1040Single).line9 = some 50000 ∧
    (mapW2ToForm1040 w2Example form1040Single).line11 = some 50000 ∧
    (mapW2ToForm1040 w2Example form1040Single).line12 = some 13850 ∧
    (mapW2ToForm1040 w2Example form1040Single).line15 = some 36150 ∧
    (mapW2ToForm1040 w2Example form1040Single).line16 = some 4118 ∧
    (mapW2ToForm1040 w2Example form1040Single).line24 = some 4118 ∧
    (mapW2ToForm1040 w2Example form1040Single).line32 = some 5000 ∧
    (mapW2ToForm1040 w2Example form1040Single).line33 = some 882 ∧
    (mapW2ToForm1040 w2Example form1040Single).line37 = some 0 := by
  have h1 : (mapW2ToForm1040 w2Example form1040Single).line1 = some 50000 := by
    rw [merge_line1]; norm_num [parseAmount, orZero, w2Example, form1040Single]
  have h9 : (mapW2ToForm1040 w2Example form1040Single).line9 = some 50000 := by
    rw [merge_line9, h1]; norm_num [orZero, form1040Single]
  have h11 : (mapW2ToForm1040 w2Example form1040Single).line11 = some 50000 := by
    rw [merge_line11, h9]
  have h12 : (mapW2ToForm1040 w2Example form1040Single).line12 = some 13850 := by
    rw [merge_line12]
    norm_num [numFalsy, orZero, strTruthy, getStandardDeduction, form1040Single]
    decide
  have h15 : (mapW2ToForm1040 w2Example form1040Single).line15 = some 36150 := by
    rw [merge_line15, h11, h12]; norm_num [orZero, merge_line13, form1040Single]
  have h16 : (mapW2ToForm1040 w2Example form1040Single).line16 = some 4118 := by
    rw [merge_line16, h15]
    norm_num [orZero, form1040Single, calculateTaxLiability, bracketsSingle, bracketsMFJ,
      bracketWalk, round2, min_def]
  have h24 : (mapW2ToForm1040 w2Example form1040Single).line24 = some 4118 := by
    rw [merge_line24, h16]; norm_num [orZero, form1040Single]
  have h25a : (mapW2ToForm1040 w2Example form1040Single).line25a = some 5000 := by
    rw [merge_line25a]; norm_num [parseAmount, orZero, w2Example, form1040Single]
  have h32 : (mapW2ToForm1040 w2Example form1040Single).line32 = some 5000 := by
    rw [merge_line32, h25a]; norm_num [orZero, form1040Single]
  have h33 : (mapW2ToForm1040 w2Example form1040Single).line33 = some 882 := by
    rw [merge_line33, h32, h24]; norm_num [orZero]
  have h37 : (mapW2ToForm1040 w2Example form1040Single).line37 = some 0 := by
    rw [merge_line37, h32, h24]; norm_num [orZero]
  exact ⟨h9, h11, h12, h15, h16, h24, h32, h33, h37⟩

/-- C2: for any two raw records and any starting record, the total-income
line and the total-payments line do not depend on the order in which the two
documents are merged. -/
theorem claim_C2 (a b : W2Data) (r : Form1040Data) :
    (mapW2ToForm1040 b (mapW2ToForm1040 a r)).line9 =
      (mapW2ToForm1040 a (mapW2ToForm1040 b r)).line9 ∧
    (mapW2ToForm1040 b (mapW2ToForm1040 a r)).line32 =
      (mapW2ToForm1040 a (mapW2ToForm1040 b r)).line32 := by
  constructor
  · simp only [merge_line9, merge_line1, merge_line2b, merge_line3b, merge_line4b,
      merge_line5b, merge_line6b, merge_line7, merge_line8]
    by_cases ha : parseAmount a.wages > 0 <;> by_cases hb : parseAmount b.wages > 0 <;>
      simp [ha, hb, add_right_comm]
  · simp only [merge_line32, merge_line25a, merge_line25b, merge_line25c, merge_line25d]
    by_cases ha : parseAmount a.federalTaxWithheld > 0 <;>
      by_cases hb : parseAmount b.federalTaxWithheld > 0 <;>
      simp [ha, hb, add_right_comm]

/-- C3: re-merging the same document into its own output is the identity when
the document carries no positive monetary amounts (the proviso under which
the spec states idempotence). -/
theorem claim_C3 (w : W2Data) (f : Form1040Data)
    (hw : parseAmount w.wages ≤ 0) (hh : parseAmount w.federalTaxWithheld ≤ 0) :
    mapW2ToForm1040 w (mapW2ToForm1040 w f) = mapW2ToForm1040 w f := by
  have hnw : ¬ parseAmount w.wages > 0 := not_lt.mpr hw
  have hnh : ¬ parseAmount w.federalTaxWithheld > 0 := not_lt.mpr hh
  have hN : applyNameMapping w (mapW2ToForm1040 w f) = mapW2ToForm1040 w f :=
    applyNameMapping_noop w _ f (merge_firstName w f) (merge_lastName w f)
  have hS : applySSNMapping w (mapW2ToForm1040 w f) = mapW2ToForm1040 w f :=
    applySSNMapping_noop w _ (applyNameMapping w f) (merge_ssn w f)
  have hA : applyAddressMapping w (mapW2ToForm1040 w f) = mapW2ToForm1040 w f :=
    applyAddressMapping_noop w _ (applySSNMapping w (applyNameMapping w f))
      (merge_address w f) (merge_city w f) (merge_state w f) (merge_zipCode w f)
  calc mapW2ToForm1040 w (mapW2ToForm1040 w f)
      = recomputeDerived (mapW2ToForm1040 w f) := by
        show recomputeDerived (applyWithholdingMapping w (applyWagesMapping w
          (applyAddressMapping w (applySSNMapping w (applyNameMapping w
            (mapW2ToForm1040 w f)))))) = recomputeDerived (mapW2ToForm1040 w f)
        rw [hN, hS, hA]
        simp [applyWagesMapping, applyWithholdingMapping, hnw, hnh]
    _ = mapW2ToForm1040 w f := recomputeDerived_idem _

/-- C3 witness: a concrete document with no monetary amounts, re-merged into
its own output over the empty record. -/
theorem claim_C3_witness :
    parseAmount w2NoMoney.wages ≤ 0 ∧ parseAmount w2NoMoney.federalTaxWithheld ≤ 0 ∧
    mapW2ToForm1040 w2NoMoney (mapW2ToForm1040 w2NoMoney emptyForm) =
      mapW2ToForm1040 w2NoMoney emptyForm :=
  ⟨le_refl 0, le_refl 0, claim_C3 w2NoMoney emptyForm (le_refl 0) (le_refl 0)⟩


/-- C4 counterexample: an existing record whose `lastName` is already present
is overwritten by a later document's name, because the first-write-wins guard
only inspects `firstName`. -/
theorem claim_C4_counterexample :
    formSmith.lastName = some "Smith" ∧
    (mapW2ToForm1040 w2DoeRaw formSmith).lastName = some "Doe" := by
  constructor
  · rfl
  · rw [merge_lastName]
    decide

/-- C4 amended: first-write-wins is keyed on one representative field per
identity group (`firstName` for the name, `ssn` for the identifier, the
street for the address): when that representative field is present and
non-empty, every field of its group is left unchanged. -/
theorem claim_C4_amended (w : W2Data) (f : Form1040Data) :
    (strTruthy f.firstName = true →
      (mapW2ToForm1040 w f).firstName = f.firstName ∧
      (mapW2ToForm1040 w f).lastName = f.lastName) ∧
    (strTruthy f.ssn = true → (mapW2ToForm1040 w f).ssn = f.ssn) ∧
    (strTruthy f.address = true →
      (mapW2ToForm1040 w f).address = f.address ∧
      (mapW2ToForm1040 w f).city = f.city ∧
      (mapW2ToForm1040 w f).state = f.state ∧
      (mapW2ToForm1040 w f).zipCode = f.zipCode) := by
  refine ⟨fun h => ?_, fun h => ?_, fun h => ?_⟩
  · rw [merge_firstName, merge_lastName]
    constructor <;> simp [applyNameMapping, h]
  · rw [merge_ssn]
    simp [applySSNMapping, h]
  · rw [merge_address, merge_city, merge_state, merge_zipCode]
    refine ⟨?_, ?_, ?_, ?_⟩ <;> simp [applyAddressMapping, h]

/-- C4 witness: a record with every identity field present keeps all of them
across a merge with a document supplying all three identity groups. -/
theorem claim_C4_witness :
    strTruthy formFull.firstName = true ∧ strTruthy formFull.ssn = true ∧
    strTruthy formFull.address = true ∧
    (mapW2ToForm1040 w2FullRaw formFull).firstName = formFull.firstName ∧
    (mapW2ToForm1040 w2FullRaw formFull).lastName = formFull.lastName ∧
    (mapW2ToForm1040 w2FullRaw formFull).ssn = formFull.ssn ∧
    (mapW2ToForm1040 w2FullRaw formFull).address = formFull.address := by
  have h := claim_C4_amended w2FullRaw formFull
  exact ⟨by decide, by decide, by decide, (h.1 (by decide)).1, (h.1 (by decide)).2,
    h.2.1 (by decide), (h.2.2 (by decide)).1⟩

/-- C5: whenever the name mapping fires, the first whitespace token of the
trimmed raw name becomes the given name and the remaining tokens joined by
single spaces become the family name; a whitespace-only raw name yields the
empty string for both parts (and the total function never throws). -/
theorem claim_C5 (w : W2Data) (f : Form1040Data)
    (hw : strTruthy w.employeeName = true) (hf : strTruthy f.firstName = false) :
    (mapW2ToForm1040 w f).firstName =
      some ((jsSplitWS (jsTrim (w.employeeName.getD ""))).headD "") ∧
    (mapW2ToForm1040 w f).lastName =
      some (String.intercalate " " ((jsSplitWS (jsTrim (w.employeeName.getD ""))).drop 1)) ∧
    (jsTrim (w.employeeName.getD "") = "" →
      (mapW2ToForm1040 w f).firstName = some "" ∧
      (mapW2ToForm1040 w f).lastName = some "") := by
  have h1 : (mapW2ToForm1040 w f).firstName =
      some ((jsSplitWS (jsTrim (w.employeeName.getD ""))).headD "") := by
    rw [merge_firstName]
    simp [applyNameMapping, hw, hf]
  have h2 : (mapW2ToForm1040 w f).lastName =
      some (String.intercalate " " ((jsSplitWS (jsTrim (w.employeeName.getD ""))).drop 1)) := by
    rw [merge_lastName]
    simp [applyNameMapping, hw, hf]
  refine ⟨h1, h2, fun he => ?_⟩
  rw [h1, h2, he]
  constructor <;> simp [jsSplitWS]
  rfl

/-- C5 witness: a three-token name splits into its first token and the
remaining tokens joined by one space. -/
theorem claim_C5_witness :
    strTruthy w2NameOnly.employeeName = true ∧ strTruthy emptyForm.firstName = false ∧
    (mapW2ToForm1040 w2NameOnly emptyForm).firstName = some "John" ∧
    (mapW2ToForm1040 w2NameOnly emptyForm).lastName = some "Q Public" := by
  have h := claim_C5 w2NameOnly emptyForm (by decide) (by decide)
  exact ⟨by decide, by decide, h.1.trans (by decide), h.2.1.trans (by decide)⟩

/-- C6: after any merge, when total payments exceed total tax the refund line
is payments minus tax, the requested-refund line equals it and the owed line
is zero; otherwise the owed line is tax minus payments and both refund lines
are zero; the refund and owed lines are never both positive. -/
theorem claim_C6 (w : W2Data) (f : Form1040Data) :
    (orZero (mapW2ToForm1040 w f).line32 > orZero (mapW2ToForm1040 w f).line24 →
      (mapW2ToForm1040 w f).line33 =
        some (orZero (mapW2ToForm1040 w f).line32 - orZero (mapW2ToForm1040 w f).line24) ∧
      (mapW2ToForm1040 w f).line34 = (mapW2ToForm1040 w f).line33 ∧
      (mapW2ToForm1040 w f).line37 = some 0) ∧
    (¬ orZero (mapW2ToForm1040 w f).line32 > orZero (mapW2ToForm1040 w f).line24 →
      (mapW2ToForm1040 w f).line37 =
        some (orZero (mapW2ToForm1040 w f).line24 - orZero (mapW2ToForm1040 w f).line32) ∧
      (mapW2ToForm1040 w f).line33 = some 0 ∧
      (mapW2ToForm1040 w f).line34 = some 0) ∧
    ¬ (0 < orZero (mapW2ToForm1040 w f).line33 ∧ 0 < orZero (mapW2ToForm1040 w f).line37) := by
  refine ⟨fun h => ⟨?_, merge_line34 w f, ?_⟩, fun h => ⟨?_, ?_, ?_⟩, ?_⟩
  · rw [merge_line33, if_pos h]
  · rw [merge_line37, if_pos h]
  · rw [merge_line37, if_neg h]
  · rw [merge_line33, if_neg h]
  · rw [merge_line34, merge_line33, if_neg h]
  · rintro ⟨h33, h37⟩
    by_cases h : orZero (mapW2ToForm1040 w f).line32 > orZero (mapW2ToForm1040 w f).line24
    · rw [merge_line37, if_pos h] at h37
      simp at h37
    · rw [merge_line33, if_neg h] at h33
      simp at h33

/-- C6 witness: with an existing payment line of 1 and the empty document,
payments (1) exceed tax (0) and the refund line is 1. -/
theorem claim_C6_witness :
    orZero (mapW2ToForm1040 w2Empty formWithPayment).line32 >
      orZero (mapW2ToForm1040 w2Empty formWithPayment).line24 ∧
    (mapW2ToForm1040 w2Empty formWithPayment).line33 = some 1 ∧
    (mapW2ToForm1040 w2Empty formWithPayment).line37 = some 0 := by
  have h32 : (mapW2ToForm1040 w2Empty formWithPayment).line32 = some 1 := by
    rw [merge_line32, merge_line25a]
    norm_num [parseAmount, orZero, w2Empty, formWithPayment]
  have h12 : (mapW2ToForm1040 w2Empty formWithPayment).line12 = none := by
    rw [merge_line12]
    norm_num [numFalsy, orZero, strTruthy, formWithPayment]
  have h1 : (mapW2ToForm1040 w2Empty formWithPayment).line1 = none := by
    rw [merge_line1]
    norm_num [parseAmount, w2Empty, formWithPayment]
  have h9 : (mapW2ToForm1040 w2Empty formWithPayment).line9 = some 0 := by
    rw [merge_line9, h1]
    norm_num [orZero, formWithPayment]
  have h15 : (mapW2ToForm1040 w2Empty formWithPayment).line15 = some 0 := by
    rw [merge_line15, merge_line11, h9, h12]
    norm_num [orZero, formWithPayment]
  have h16 : (mapW2ToForm1040 w2Empty formWithPayment).line16 = some 0 := by
    rw [merge_line16, h15]
    norm_num [orZero, formWithPayment, calculateTaxLiability, bracketsSingle, bracketsMFJ,
      bracketWalk, round2]
  have h24 : (mapW2ToForm1040 w2Empty formWithPayment).line24 = some 0 := by
    rw [merge_line24, h16]
    norm_num [orZero, formWithPayment]
  have hgt : orZero (mapW2ToForm1040 w2Empty formWithPayment).line32 >
      orZero (mapW2ToForm1040 w2Empty formWithPayment).line24 := by
    rw [h32, h24]; norm_num
  have h := (claim_C6 w2Empty formWithPayment).1 hgt
  refine ⟨hgt, ?_, h.2.2⟩
  rw [h.1, h32, h24]
  norm_num


/-- C7: at the object level, merging never mutates the caller's record: the
fresh reference differs from the caller's and the caller's reference still
reads the same record, while the fresh reference holds the merged result. -/
theorem claim_C7 (w : W2Data) (r : ℕ) (σ : Store) (h : r < σ.next) :
    (mapW2ToForm1040Ref w r σ).2.read r = σ.read r ∧
    (mapW2ToForm1040Ref w r σ).1 ≠ r ∧
    (mapW2ToForm1040Ref w r σ).2.read (mapW2ToForm1040Ref w r σ).1 =
      mapW2ToForm1040 w (σ.read r) := by
  have hne : r ≠ σ.next := Nat.ne_of_lt h
  refine ⟨?_, ?_, ?_⟩
  · simp [mapW2ToForm1040Ref, Store.read, hne]
  · exact fun hc => hne hc.symm
  · simp [mapW2ToForm1040Ref, Store.read]

/-- C7 witness: a one-object store. -/
theorem claim_C7_witness :
    (0 : ℕ) < storeExample.next ∧
    (mapW2ToForm1040Ref w2Example 0 storeExample).2.read 0 = storeExample.read 0 ∧
    (mapW2ToForm1040Ref w2Example 0 storeExample).1 ≠ 0 :=
  ⟨by decide, (claim_C7 w2Example 0 storeExample (by decide)).1,
   (claim_C7 w2Example 0 storeExample (by decide)).2.1⟩

/-- C8: the empty bag fails validation with exactly the three required-field
errors; a bag with wages, SSN and name but no withholding or employer data is
valid with exactly three warnings; and validity holds exactly when the error
list is empty. -/
theorem claim_C8 :
    validateW2DataForMapping w2Empty =
      ⟨false,
        ["W2 wages (Box 1) is required but not found",
         "Employee SSN is required but not found",
         "Employee name is required but not found"],
        ["Federal tax withheld (Box 2) not found - no withholdings will be applied",
         "Employer name not found - may be needed for verification",
         "Employer EIN not found - may be needed for verification"]⟩ ∧
    (∀ w : W2Data, jsTruthy w.wages = true → strTruthy w.employeeSSN = true →
      strTruthy w.employeeName = true → jsTruthy w.federalTaxWithheld = false →
      strTruthy w.employerName = false → strTruthy w.employerEIN = false →
      (validateW2DataForMapping w).isValid = true ∧
      (validateW2DataForMapping w).warnings.length = 3) ∧
    ∀ w : W2Data, (validateW2DataForMapping w).isValid = true ↔
      (validateW2DataForMapping w).errors = [] := by
  refine ⟨by decide, fun w h1 h2 h3 h4 h5 h6 => ?_, fun w => ?_⟩
  · constructor <;> simp [validateW2DataForMapping, h1, h2, h3, h4, h5, h6]
  · by_cases c1 : (!jsTruthy w.wages && !jsTruthy w.line1) = true <;>
    by_cases c2 : (!strTruthy w.employeeSSN && !strTruthy w.ssn) = true <;>
    by_cases c3 : (!strTruthy w.employeeName && !strTruthy w.firstName &&
      !strTruthy w.lastName) = true <;>
    simp [validateW2DataForMapping, c1, c2, c3]

/-- C8 witness: a bag with wages, SSN and name and nothing else. -/
theorem claim_C8_witness :
    jsTruthy w2Valid.wages = true ∧ strTruthy w2Valid.employeeSSN = true ∧
    strTruthy w2Valid.employeeName = true ∧ jsTruthy w2Valid.federalTaxWithheld = false ∧
    strTruthy w2Valid.employerName = false ∧ strTruthy w2Valid.employerEIN = false ∧
    (validateW2DataForMapping w2Valid).isValid = true ∧
    (validateW2DataForMapping w2Valid).warnings.length = 3 := by
  have h := claim_C8.2.1 w2Valid (by decide) (by decide) (by decide) (by decide)
    (by decide) (by decide)
  exact ⟨by decide, by decide, by decide, by decide, by decide, by decide, h.1, h.2⟩

/-- C9: the mapping summary emits exactly one entry per present field of the
fixed six-field checklist, in checklist order, silently skipping absent
fields (and, being a total function, never raises). -/
theorem claim_C9 (w : W2Data) :
    createMappingSummary w =
      (mappingChecklist.filter (checklistPresent w)).map (checklistEntry w) := by
  cases h1 : strTruthy w.employeeName <;> cases h2 : strTruthy w.employeeSSN <;>
    cases h3 : jsTruthy w.wages <;> cases h4 : jsTruthy w.federalTaxWithheld <;>
    cases h5 : jsTruthy w.socialSecurityWages <;> cases h6 : jsTruthy w.medicareWages <;>
    simp [createMappingSummary, mappingChecklist, checklistPresent, checklistEntry,
      h1, h2, h3, h4, h5, h6]

/-- C10: the merge never writes the filing status; merging into a record with
no filing status and no standard-deduction line leaves the deduction absent
(treated as zero), so taxable income is AGI minus only the itemized line,
floored at zero. -/
theorem claim_C10 (w : W2Data) (f : Form1040Data) :
    (mapW2ToForm1040 w f).filingStatus = f.filingStatus ∧
    (f.filingStatus = none → f.line12 = none →
      (mapW2ToForm1040 w f).line12 = none ∧
      (mapW2ToForm1040 w f).line15 =
        some (max 0 (orZero (mapW2ToForm1040 w f).line11 - orZero f.line13))) := by
  refine ⟨merge_filingStatus w f, fun hfs h12 => ?_⟩
  have h : (mapW2ToForm1040 w f).line12 = none := by
    rw [merge_line12, hfs, h12]
    simp [strTruthy]
  refine ⟨h, ?_⟩
  rw [merge_line15, h]
  simp

/-- C10 witness: the worked-example document merged into the empty record. -/
theorem claim_C10_witness :
    emptyForm.filingStatus = none ∧ emptyForm.line12 = none ∧
    (mapW2ToForm1040 w2Example emptyForm).line12 = none ∧
    (mapW2ToForm1040 w2Example emptyForm).line15 =
      some (max 0 (orZero (mapW2ToForm1040 w2Example emptyForm).line11 -
        orZero emptyForm.line13)) :=
  ⟨rfl, rfl, ((claim_C10 w2Example emptyForm).2 rfl rfl).1,
   ((claim_C10 w2Example emptyForm).2 rfl rfl).2⟩

end W2Mapping
